import Mathlib

/-
Shallow embedding of the Abraxas-365/toolkit authentication core.

Sources embedded here:
  * pkg/errors/errors.go        : ApiError, LuciaError, handleApiError, handleLuciaError
  * pkg/lucia/lucia.go          : OAuthToken.NeedsRefresh, Session, Session.IsExpired
  * pkg/lucia/service.go        : generic AuthService[U] (HandleCallback, CreateSession,
                                  Logout, DeleteSession) and the non-generic AuthService
                                  variant that propagates untagged errors
  * pkg/lucia/luciastore/luciastore.go : PostgresStore session operations, with the
                                  sessions table modelled as an association list keyed
                                  by the primary-key column id
  * in-memory stores (example file) : InMemoryUserStore, InMemorySessionStore, with the
                                  Go map modelled as an association list

Conventions: Unix timestamps are Int values counted in seconds and the current
time is passed explicitly as a parameter `now`; Go's crypto/rand generated ids
are passed explicitly as string parameters; store interfaces are records of
state-passing functions so the service can be instantiated with any store.
-/

namespace Toolkit

/-- ApiError from pkg/errors/errors.go: a string discriminant plus a message. -/
structure ApiError where
  type : String
  message : String
deriving DecidableEq, Repr

/-- LuciaError from pkg/errors/errors.go: a string discriminant plus a message. -/
structure LuciaError where
  type : String
  message : String
deriving DecidableEq, Repr

/-- A Go error value as the toolkit uses them: an ApiError, a LuciaError, or a
plain error built with errors.New / fmt.Errorf (carrying only its text). -/
inductive Err where
  | api : ApiError → Err
  | lucia : LuciaError → Err
  | go : String → Err
deriving DecidableEq, Repr

/-- ErrNotFound constructor from errors.go. -/
def errNotFound (msg : String) : Err := .api ⟨"NotFound", msg⟩

/-- ErrConflict constructor from errors.go. -/
def errConflict (msg : String) : Err := .api ⟨"Conflict", msg⟩

/-- ErrDatabase constructor from errors.go. -/
def errDatabase (msg : String) : Err := .api ⟨"DatabaseError", msg⟩

/-- ErrUnauthorized constructor from errors.go. -/
def errUnauthorized (msg : String) : Err := .api ⟨"Unauthorized", msg⟩

/-- ErrBadRequest constructor from errors.go. -/
def errBadRequest (msg : String) : Err := .api ⟨"BadRequest", msg⟩

/-- NewLuciaError wrapped as an Err. -/
def luciaErr (t msg : String) : Err := .lucia ⟨t, msg⟩

/-- IsNotFound from errors.go: the error is an ApiError with type NotFound. -/
def isNotFound : Err → Bool
  | .api e => e.type = "NotFound"
  | _ => false

/-- handleApiError from errors.go: HTTP status code and message for an ApiError.
The Go switch is rendered as a chain of equality tests in the source order. -/
def handleApiError (e : ApiError) : Nat × String :=
  if e.type = "ParseError" ∨ e.type = "UnexpectedError" ∨ e.type = "DatabaseError" then
    (500, e.message)
  else if e.type = "NotFound" then (404, e.message)
  else if e.type = "BadRequest" then (400, e.message)
  else if e.type = "Forbidden" then (403, e.message)
  else if e.type = "Unauthorized" then (401, e.message)
  else if e.type = "Conflict" then (409, e.message)
  else if e.type = "ServiceUnavailable" then (503, e.message)
  else (500, e.message)

/-- handleLuciaError from errors.go: HTTP status code and message for a LuciaError. -/
def handleLuciaError (le : LuciaError) : Nat × String :=
  if le.type = "DatabaseConnectionError" ∨ le.type = "DatabaseQueryError" ∨
     le.type = "UserSessionTableNotExist" ∨ le.type = "AuthUserTableNotExist" ∨
     le.type = "SessionCreationFailed" ∨ le.type = "SessionDeletionFailed" ∨
     le.type = "UserCreationFailed" ∨ le.type = "UserUpdateFailed" ∨
     le.type = "EncryptionError" ∨ le.type = "DecryptionError" ∨
     le.type = "ConfigurationError" ∨ le.type = "UnexpectedError" then
    (500, le.message)
  else if le.type = "UserSessionNotFound" then (404, le.message)
  else if le.type = "InvalidSessionId" then (400, le.message)
  else if le.type = "SessionExpired" ∨ le.type = "InvalidCredentials" ∨
          le.type = "InvalidToken" ∨ le.type = "TokenExpired" then
    (401, le.message)
  else if le.type = "DuplicateUserError" then (409, le.message)
  else (500, le.message)

/-- OAuthToken from pkg/lucia/lucia.go.  The ExpiresIn field holds an absolute
Unix timestamp (the providers store token.Expiry.Unix() into it). -/
structure OAuthToken where
  accessToken : String
  refreshToken : String
  expiresIn : Int
deriving DecidableEq, Repr

/-- OAuthToken.NeedsRefresh from pkg/lucia/lucia.go, with time.Now().Unix()
passed explicitly as `now`. -/
def OAuthToken.NeedsRefresh (t : OAuthToken) (now : Int) : Bool :=
  if t.expiresIn = 0 then false
  else decide (now + 300 ≥ t.expiresIn)

/-- UserInfo from pkg/lucia/lucia.go: the normalized profile a provider returns. -/
structure UserInfo where
  id : String
  email : String
  name : String
  provider : String
  profilePicture : Option String := none
  token : Option OAuthToken := none
deriving DecidableEq, Repr

/-- Session from pkg/lucia/lucia.go.  UserID is interface\x7b\x7d in Go; the
generic service always stores user.GetID(), a string, so it is a String here. -/
structure Session where
  id : String
  userId : String
  expiresAt : Int
deriving DecidableEq, Repr

/-- Session.IsExpired from pkg/lucia/lucia.go, with time.Now().Unix() passed
explicitly as `now`. -/
def Session.IsExpired (s : Session) (now : Int) : Bool :=
  decide (s.expiresAt < now)

/-- User struct of the in-memory store example and of the non-generic service. -/
structure User where
  id : String
  email : String
  name : String
  providerID : String
  provider : String
deriving DecidableEq, Repr

/-- Lookup in a string-keyed association list, modelling Go map indexing. -/
def alookup {α : Type} : List (String × α) → String → Option α
  | [], _ => none
  | (k, v) :: rest, key => if k = key then some v else alookup rest key

/-- Removal from a string-keyed association list, modelling Go's delete(m, k). -/
def aerase {α : Type} : List (String × α) → String → List (String × α)
  | [], _ => []
  | (k, v) :: rest, key => if k = key then aerase rest key else (k, v) :: aerase rest key

/-- The sessions map of InMemorySessionStore (and the sessions table of the
Postgres store, keyed by its primary-key id column). -/
abbrev SessionMap := List (String × Session)

/-- The users map of InMemoryUserStore, keyed by user id. -/
abbrev UserMap := List (String × User)

/-- InMemorySessionStore.CreateSession: Conflict if the id is present,
otherwise store the session. -/
def InMemorySessionStore.CreateSession (m : SessionMap) (s : Session) :
    Except Err Unit × SessionMap :=
  if (alookup m s.id).isSome then (.error (errConflict "Session already exists"), m)
  else (.ok (), (s.id, s) :: m)

/-- InMemorySessionStore.GetSession: NotFound if absent; if now is strictly past
the expiry, delete the record and report NotFound "Session expired". -/
def InMemorySessionStore.GetSession (now : Int) (m : SessionMap) (sessionID : String) :
    Except Err Session × SessionMap :=
  match alookup m sessionID with
  | none => (.error (errNotFound "Session not found"), m)
  | some s =>
    if now > s.expiresAt then (.error (errNotFound "Session expired"), aerase m sessionID)
    else (.ok s, m)

/-- InMemorySessionStore.DeleteSession: NotFound if absent, else remove. -/
def InMemorySessionStore.DeleteSession (m : SessionMap) (sessionID : String) :
    Except Err Unit × SessionMap :=
  if (alookup m sessionID).isSome then (.ok (), aerase m sessionID)
  else (.error (errNotFound "Session not found"), m)

/-- PostgresStore.CreateSession over the sessions-table model: the INSERT hits a
unique violation exactly when the primary key id is already present, which the
Go code turns into ErrConflict. -/
def PostgresStore.CreateSession (m : SessionMap) (s : Session) :
    Except Err Unit × SessionMap :=
  if (alookup m s.id).isSome then (.error (errConflict "Session already exists"), m)
  else (.ok (), (s.id, s) :: m)

/-- PostgresStore.GetSession over the sessions-table model: ErrNoRows becomes
ErrNotFound; an expired row (expires_at before now) is reported as
ErrUnauthorized "Session expired" and the row is NOT deleted. -/
def PostgresStore.GetSession (now : Int) (m : SessionMap) (sessionID : String) :
    Except Err Session × SessionMap :=
  match alookup m sessionID with
  | none => (.error (errNotFound "Session not found"), m)
  | some s =>
    if s.expiresAt < now then (.error (errUnauthorized "Session expired"), m)
    else (.ok s, m)

/-- PostgresStore.DeleteSession over the sessions-table model: zero rows
affected becomes ErrNotFound. -/
def PostgresStore.DeleteSession (m : SessionMap) (sessionID : String) :
    Except Err Unit × SessionMap :=
  if (alookup m sessionID).isSome then (.ok (), aerase m sessionID)
  else (.error (errNotFound "Session not found"), m)

/-- The linear scan of InMemoryUserStore.GetUserByProviderID over the users map. -/
def findUserByProvider : UserMap → String → String → Option User
  | [], _, _ => none
  | (_, u) :: rest, prov, pid =>
    if u.provider = prov ∧ u.providerID = pid then some u
    else findUserByProvider rest prov pid

/-- InMemoryUserStore.GetUserByProviderID: scan for matching (provider,
providerID), NotFound if no user matches. -/
def InMemoryUserStore.GetUserByProviderID (m : UserMap) (provider providerID : String) :
    Except Err User × UserMap :=
  match findUserByProvider m provider providerID with
  | some u => (.ok u, m)
  | none => (.error (errNotFound "User not found"), m)

/-- InMemoryUserStore.CreateUser: builds the User from the UserInfo with a
freshly generated id (passed here as `uid`), fails with Conflict if that id is
already taken, else stores it. -/
def InMemoryUserStore.CreateUser (uid : String) (m : UserMap) (ui : UserInfo) :
    Except Err User × UserMap :=
  let user : User := ⟨uid, ui.email, ui.name, ui.id, ui.provider⟩
  if (alookup m uid).isSome then (.error (errConflict "User already exists"), m)
  else (.ok user, (uid, user) :: m)

/-- The two OAuthProvider operations HandleCallback uses, as result oracles:
the network behavior of a registered provider during one callback. -/
structure Provider where
  exchangeCode : String → Except Err OAuthToken
  getUserInfo : OAuthToken → Except Err UserInfo

/-- The AuthUserStore[U] interface of the generic service, as state-passing
functions over an abstract store state σ. -/
structure UserStoreOps (σ : Type) (U : Type) where
  getUserByProviderID : σ → String → String → Except Err U × σ
  createUser : σ → UserInfo → Except Err U × σ

/-- The SessionStore interface, as state-passing functions over an abstract
store state σ. -/
structure SessionStoreOps (σ : Type) where
  createSession : σ → Session → Except Err Unit × σ
  getSession : σ → String → Except Err Session × σ
  deleteSession : σ → String → Except Err Unit × σ

/-- Tail of the generic HandleCallback and body of AuthService.CreateSession:
build the Session with the generated id and now+24h expiry, persist it, and
wrap a store failure into SessionCreationFailed. -/
def finishSession {σU σS U : Type} (ss : SessionStoreOps σS) (getID : U → String)
    (now : Int) (sessionId : String) (user : U) (stU : σU) (stS : σS) :
    Except Err Session × σU × σS :=
  match ss.createSession stS ⟨sessionId, getID user, now + 86400⟩ with
  | (.error _, stS2) =>
    (.error (luciaErr "SessionCreationFailed" "Failed to create session"), stU, stS2)
  | (.ok _, stS2) => (.ok ⟨sessionId, getID user, now + 86400⟩, stU, stS2)

/-- AuthService[U].HandleCallback from pkg/lucia/service.go (generic variant).
The provider registry is an association list; time.Now().Unix() is `now` and
the GenerateID() result for the session is `sessionId`. -/
def AuthService.HandleCallback {σU σS U : Type} (providers : List (String × Provider))
    (us : UserStoreOps σU U) (ss : SessionStoreOps σS) (getID : U → String)
    (now : Int) (sessionId : String) (provider code : String)
    (stU : σU) (stS : σS) : Except Err Session × σU × σS :=
  match alookup providers provider with
  | none => (.error (luciaErr "UnknownProvider" "Unknown OAuth provider"), stU, stS)
  | some p =>
    match p.exchangeCode code with
    | .error _ =>
      (.error (luciaErr "TokenExchangeError" "Failed to exchange code for token"), stU, stS)
    | .ok token =>
      match p.getUserInfo token with
      | .error _ => (.error (luciaErr "UserInfoError" "Failed to get user info"), stU, stS)
      | .ok ui =>
        match us.getUserByProviderID stU provider ({ ui with token := some token } : UserInfo).id with
        | (.ok user, stU2) => finishSession ss getID now sessionId user stU2 stS
        | (.error e, stU2) =>
          if isNotFound e then
            match us.createUser stU2 ({ ui with token := some token } : UserInfo) with
            | (.error _, stU3) =>
              (.error (luciaErr "UserCreationFailed" "Failed to create user"), stU3, stS)
            | (.ok user, stU3) => finishSession ss getID now sessionId user stU3 stS
          else (.error (luciaErr "DatabaseError" "Failed to fetch user"), stU2, stS)

/-- AuthService[U].CreateSession from pkg/lucia/service.go. -/
def AuthService.CreateSession {σS U : Type} (ss : SessionStoreOps σS) (getID : U → String)
    (now : Int) (sessionId : String) (user : U) (stS : σS) :
    Except Err Session × σS :=
  match ss.createSession stS ⟨sessionId, getID user, now + 86400⟩ with
  | (.error _, stS2) =>
    (.error (luciaErr "SessionCreationFailed" "Failed to create session"), stS2)
  | (.ok _, stS2) => (.ok ⟨sessionId, getID user, now + 86400⟩, stS2)

/-- AuthService[U].Logout from pkg/lucia/service.go: any deletion failure
becomes SessionDeletionFailed. -/
def AuthService.Logout {σS : Type} (ss : SessionStoreOps σS) (stS : σS)
    (sessionID : String) : Except Err Unit × σS :=
  match ss.deleteSession stS sessionID with
  | (.error _, stS2) =>
    (.error (luciaErr "SessionDeletionFailed" "Failed to delete session"), stS2)
  | (.ok _, stS2) => (.ok (), stS2)

/-- AuthService[U].DeleteSession from pkg/lucia/service.go: same body as Logout. -/
def AuthService.DeleteSession {σS : Type} (ss : SessionStoreOps σS) (stS : σS)
    (sessionID : String) : Except Err Unit × σS :=
  match ss.deleteSession stS sessionID with
  | (.error _, stS2) =>
    (.error (luciaErr "SessionDeletionFailed" "Failed to delete session"), stS2)
  | (.ok _, stS2) => (.ok (), stS2)

/-- The UserStore interface of the non-generic AuthService variant. -/
structure UserStoreNGOps (σ : Type) where
  getUserByProviderID : σ → String → String → Except Err User × σ
  createUser : σ → User → Except Err Unit × σ

/-- Tail of the non-generic HandleCallback: persist the session and propagate a
store failure unchanged. -/
def finishSessionNG {σU σS : Type} (ss : SessionStoreOps σS)
    (now : Int) (sessionId : String) (user : User) (stU : σU) (stS : σS) :
    Except Err Session × σU × σS :=
  match ss.createSession stS ⟨sessionId, user.id, now + 86400⟩ with
  | (.error e, stS2) => (.error e, stU, stS2)
  | (.ok _, stS2) => (.ok ⟨sessionId, user.id, now + 86400⟩, stU, stS2)

/-- HandleCallback of the non-generic AuthService variant in
pkg/lucia/service.go: it propagates each failing step's error unchanged and
creates a user on ANY lookup failure (no not-found check).  The generateID()
result for the new user is `userId`. -/
def NonGenericAuthService.HandleCallback {σU σS : Type}
    (providers : List (String × Provider))
    (us : UserStoreNGOps σU) (ss : SessionStoreOps σS)
    (now : Int) (userId sessionId : String) (provider code : String)
    (stU : σU) (stS : σS) : Except Err Session × σU × σS :=
  match alookup providers provider with
  | none => (.error (.go "unknown provider"), stU, stS)
  | some p =>
    match p.exchangeCode code with
    | .error e => (.error e, stU, stS)
    | .ok token =>
      match p.getUserInfo token with
      | .error e => (.error e, stU, stS)
      | .ok userInfo =>
        match us.getUserByProviderID stU provider userInfo.id with
        | (.ok user, stU2) => finishSessionNG ss now sessionId user stU2 stS
        | (.error _, stU2) =>
          let user : User := ⟨userId, userInfo.email, userInfo.name, userInfo.id, provider⟩
          match us.createUser stU2 user with
          | (.error e, stU3) => (.error e, stU3, stS)
          | (.ok _, stU3) => finishSessionNG ss now sessionId user stU3 stS

/-- InMemoryUserStore packaged as the generic user-store interface, with the
id the store will generate for a created user passed as `uid`. -/
def memUserOps (uid : String) : UserStoreOps UserMap User where
  getUserByProviderID := fun m prov pid => InMemoryUserStore.GetUserByProviderID m prov pid
  createUser := fun m ui => InMemoryUserStore.CreateUser uid m ui

/-- InMemorySessionStore packaged as the session-store interface at a fixed
read time `now`. -/
def memSessionOps (now : Int) : SessionStoreOps SessionMap where
  createSession := fun m s => InMemorySessionStore.CreateSession m s
  getSession := fun m sid => InMemorySessionStore.GetSession now m sid
  deleteSession := fun m sid => InMemorySessionStore.DeleteSession m sid

/-- Test fixture: a concrete token for witness instantiations. -/
def stubToken : OAuthToken := ⟨"at", "rt", 0⟩

/-- Test fixture: a concrete UserInfo, matching the spec's worked example. -/
def stubInfo : UserInfo := ⟨"42", "a@b.com", "A", "google", none, none⟩

/-- Test fixture: a provider whose calls all succeed. -/
def okProvider : Provider := ⟨fun _ => .ok stubToken, fun _ => .ok stubInfo⟩

/-- Test fixture: a provider whose code exchange fails with a plain Go error. -/
def failProvider : Provider :=
  ⟨fun _ => .error (.go "boom"), fun _ => .error (.go "userinfo down")⟩

/-- Test fixture: a trivial user store over Unit state. -/
def unitUserOps : UserStoreOps Unit Unit where
  getUserByProviderID := fun s _ _ => (.error (errNotFound "User not found"), s)
  createUser := fun s _ => (.ok (), s)

/-- Test fixture: a trivial non-generic user store over Unit state. -/
def unitUserNGOps : UserStoreNGOps Unit where
  getUserByProviderID := fun s _ _ => (.error (errNotFound "User not found"), s)
  createUser := fun s _ => (.ok (), s)

/-- Test fixture: a trivial session store over Unit state. -/
def unitSessionOps : SessionStoreOps Unit where
  createSession := fun s _ => (.ok (), s)
  getSession := fun s _ => (.error (errNotFound "Session not found"), s)
  deleteSession := fun s _ => (.ok (), s)

/-- Test fixture: a session store whose deletion fails with a database error. -/
def failDeleteSessionOps : SessionStoreOps Unit where
  createSession := fun s _ => (.ok (), s)
  getSession := fun s _ => (.error (errNotFound "Session not found"), s)
  deleteSession := fun s _ => (.error (errDatabase "connection lost"), s)

/-- The LuciaError discriminant of a callback outcome, if its error is a
LuciaError at all. -/
def luciaTypeOf : Except Err Session → Option String
  | .error (.lucia le) => some le.type
  | _ => none

/-- Looking up a key right after erasing it always fails. -/
theorem alookup_aerase {α : Type} (m : List (String × α)) (k : String) :
    alookup (aerase m k) k = none := by
  induction m with
  | nil => rfl
  | cons p rest ih =>
    obtain ⟨a, b⟩ := p
    by_cases h : a = k <;> simp [aerase, alookup, h, ih]

/-- C3: NeedsRefresh is true iff the expiry field is not 0 and now + 300 is at
least the expiry; with expiry 0 it is false, with expiry now + 301 false, and
with expiry now + 299 true.  The clock value now is nonnegative, as
time.Now().Unix() is on any machine with a post-1970 clock. -/
theorem C3_needsRefresh (now : Int) (t : OAuthToken) (hnow : 0 ≤ now) :
    (t.NeedsRefresh now = true ↔ (t.expiresIn ≠ 0 ∧ now + 300 ≥ t.expiresIn))
    ∧ (t.expiresIn = 0 → t.NeedsRefresh now = false)
    ∧ (t.expiresIn = now + 301 → t.NeedsRefresh now = false)
    ∧ (t.expiresIn = now + 299 → t.NeedsRefresh now = true) := by
  unfold OAuthToken.NeedsRefresh
  refine ⟨?_, ?_, ?_, ?_⟩
  · by_cases h : t.expiresIn = 0 <;> simp [h]
  · intro h
    simp [h]
  · intro h
    rw [h]
    split_ifs with h0
    · rfl
    · simp
  · intro h
    rw [h]
    have hne : ¬ (now + 299 = 0) := by omega
    rw [if_neg hne]
    simp

/-- Witness for C3 at now = 1000 and a token expiring at 1299. -/
theorem C3_needsRefresh_witness :
    (0 : Int) ≤ 1000
    ∧ ((OAuthToken.mk "a" "r" 1299).NeedsRefresh 1000 = true ↔
        ((OAuthToken.mk "a" "r" 1299).expiresIn ≠ 0
         ∧ 1000 + 300 ≥ (OAuthToken.mk "a" "r" 1299).expiresIn))
    ∧ ((OAuthToken.mk "a" "r" 1299).expiresIn = 0 →
        (OAuthToken.mk "a" "r" 1299).NeedsRefresh 1000 = false)
    ∧ ((OAuthToken.mk "a" "r" 1299).expiresIn = 1000 + 301 →
        (OAuthToken.mk "a" "r" 1299).NeedsRefresh 1000 = false)
    ∧ ((OAuthToken.mk "a" "r" 1299).expiresIn = 1000 + 299 →
        (OAuthToken.mk "a" "r" 1299).NeedsRefresh 1000 = true) :=
  ⟨by norm_num, C3_needsRefresh 1000 (OAuthToken.mk "a" "r" 1299) (by norm_num)⟩

/-- C5: the error-to-HTTP-status translation follows the fixed table.  In the
API family: NotFound maps to 404, BadRequest to 400, Forbidden to 403,
Unauthorized to 401, Conflict to 409, ServiceUnavailable to 503, and every
other API kind to 500.  In the Lucia family: the not-found kind
UserSessionNotFound maps to 404, InvalidSessionId to 400, SessionExpired,
InvalidCredentials, InvalidToken and TokenExpired to 401, DuplicateUserError
to 409, and every other Lucia kind to 500. -/
theorem C5_statusTable :
    (∀ msg, handleApiError ⟨"NotFound", msg⟩ = (404, msg))
    ∧ (∀ msg, handleApiError ⟨"BadRequest", msg⟩ = (400, msg))
    ∧ (∀ msg, handleApiError ⟨"Forbidden", msg⟩ = (403, msg))
    ∧ (∀ msg, handleApiError ⟨"Unauthorized", msg⟩ = (401, msg))
    ∧ (∀ msg, handleApiError ⟨"Conflict", msg⟩ = (409, msg))
    ∧ (∀ msg, handleApiError ⟨"ServiceUnavailable", msg⟩ = (503, msg))
    ∧ (∀ t msg, t ≠ "NotFound" → t ≠ "BadRequest" → t ≠ "Forbidden" →
        t ≠ "Unauthorized" → t ≠ "Conflict" → t ≠ "ServiceUnavailable" →
        handleApiError ⟨t, msg⟩ = (500, msg))
    ∧ (∀ msg, handleLuciaError ⟨"UserSessionNotFound", msg⟩ = (404, msg))
    ∧ (∀ msg, handleLuciaError ⟨"InvalidSessionId", msg⟩ = (400, msg))
    ∧ (∀ msg, handleLuciaError ⟨"SessionExpired", msg⟩ = (401, msg))
    ∧ (∀ msg, handleLuciaError ⟨"InvalidCredentials", msg⟩ = (401, msg))
    ∧ (∀ msg, handleLuciaError ⟨"InvalidToken", msg⟩ = (401, msg))
    ∧ (∀ msg, handleLuciaError ⟨"TokenExpired", msg⟩ = (401, msg))
    ∧ (∀ msg, handleLuciaError ⟨"DuplicateUserError", msg⟩ = (409, msg))
    ∧ (∀ t msg, t ≠ "UserSessionNotFound" → t ≠ "InvalidSessionId" →
        t ≠ "SessionExpired" → t ≠ "InvalidCredentials" → t ≠ "InvalidToken" →
        t ≠ "TokenExpired" → t ≠ "DuplicateUserError" →
        handleLuciaError ⟨t, msg⟩ = (500, msg)) := by
  refine ⟨?_, ?_, ?_, ?_, ?_, ?_, ?_, ?_, ?_, ?_, ?_, ?_, ?_, ?_, ?_⟩
  · intro msg; simp [handleApiError]
  · intro msg; simp [handleApiError]
  · intro msg; simp [handleApiError]
  · intro msg; simp [handleApiError]
  · intro msg; simp [handleApiError]
  · intro msg; simp [handleApiError]
  · intro t msg h1 h2 h3 h4 h5 h6
    unfold handleApiError
    split_ifs <;> simp_all
  · intro msg; simp [handleLuciaError]
  · intro msg; simp [handleLuciaError]
  · intro msg; simp [handleLuciaError]
  · intro msg; simp [handleLuciaError]
  · intro msg; simp [handleLuciaError]
  · intro msg; simp [handleLuciaError]
  · intro msg; simp [handleLuciaError]
  · intro t msg h1 h2 h3 h4 h5 h6 h7
    unfold handleLuciaError
    split_ifs <;> simp_all

/-- Witness for C5 exercising the two default branches at the unlisted kind
"SomethingElse". -/
theorem C5_statusTable_witness :
    handleApiError ⟨"SomethingElse", "m"⟩ = (500, "m")
    ∧ handleLuciaError ⟨"SomethingElse", "m"⟩ = (500, "m") :=
  ⟨C5_statusTable.2.2.2.2.2.2.1 "SomethingElse" "m" (by decide) (by decide)
      (by decide) (by decide) (by decide) (by decide),
   C5_statusTable.2.2.2.2.2.2.2.2.2.2.2.2.2.2 "SomethingElse" "m" (by decide)
      (by decide) (by decide) (by decide) (by decide) (by decide) (by decide)⟩

/-- C7: HandleCallback with a provider name absent from the registry fails with
UnknownProvider and returns both store states unchanged (no store writes). -/
theorem C7_unknownProvider {σU σS U : Type} (providers : List (String × Provider))
    (us : UserStoreOps σU U) (ss : SessionStoreOps σS) (getID : U → String)
    (now : Int) (sessionId provider code : String) (stU : σU) (stS : σS)
    (h : alookup providers provider = none) :
    AuthService.HandleCallback providers us ss getID now sessionId provider code stU stS
      = (.error (luciaErr "UnknownProvider" "Unknown OAuth provider"), stU, stS) := by
  simp [AuthService.HandleCallback, h]

/-- Witness for C7 with an empty provider registry and trivial stores. -/
theorem C7_unknownProvider_witness :
    alookup ([] : List (String × Provider)) "google" = none
    ∧ AuthService.HandleCallback [] unitUserOps unitSessionOps (fun _ : Unit => "u")
        0 "s1" "google" "c" () ()
      = (.error (luciaErr "UnknownProvider" "Unknown OAuth provider"), (), ()) :=
  ⟨rfl, C7_unknownProvider [] unitUserOps unitSessionOps (fun _ => "u")
      0 "s1" "google" "c" () () rfl⟩

/-- C10: whenever the underlying session-store deletion fails — with any error
at all — both Logout and DeleteSession return the single tagged error
SessionDeletionFailed, so a missing session and a database failure are
indistinguishable to the caller. -/
theorem C10_deletionFailure {σS : Type} (ss : SessionStoreOps σS) (stS : σS)
    (sessionID : String) (e : Err)
    (h : (ss.deleteSession stS sessionID).1 = .error e) :
    (AuthService.Logout ss stS sessionID).1
      = .error (luciaErr "SessionDeletionFailed" "Failed to delete session")
    ∧ (AuthService.DeleteSession ss stS sessionID).1
      = .error (luciaErr "SessionDeletionFailed" "Failed to delete session") := by
  rcases hd : ss.deleteSession stS sessionID with ⟨r, st2⟩
  rw [hd] at h
  change r = .error e at h
  subst h
  constructor <;> simp [AuthService.Logout, AuthService.DeleteSession, hd]

/-- Witness for C10: a store whose deletion fails with a database error. -/
theorem C10_deletionFailure_witness :
    (failDeleteSessionOps.deleteSession () "s1").1 = .error (errDatabase "connection lost")
    ∧ (AuthService.Logout failDeleteSessionOps () "s1").1
        = .error (luciaErr "SessionDeletionFailed" "Failed to delete session")
    ∧ (AuthService.DeleteSession failDeleteSessionOps () "s1").1
        = .error (luciaErr "SessionDeletionFailed" "Failed to delete session") :=
  ⟨rfl,
   (C10_deletionFailure failDeleteSessionOps () "s1" (errDatabase "connection lost") rfl).1,
   (C10_deletionFailure failDeleteSessionOps () "s1" (errDatabase "connection lost") rfl).2⟩

/-- C9: creating a session with a fresh id and immediately fetching it by id
from the in-memory store succeeds and returns an equal Session, provided
now is strictly before the expiry. -/
theorem C9_roundTrip (m : SessionMap) (s : Session) (now : Int)
    (hfresh : alookup m s.id = none) (hlt : now < s.expiresAt) :
    (InMemorySessionStore.CreateSession m s).1 = .ok ()
    ∧ (InMemorySessionStore.GetSession now
        (InMemorySessionStore.CreateSession m s).2 s.id).1 = .ok s := by
  have hng : ¬ (now > s.expiresAt) := by omega
  constructor
  · simp [InMemorySessionStore.CreateSession, hfresh]
  · simp [InMemorySessionStore.CreateSession, hfresh,
      InMemorySessionStore.GetSession, alookup, hng]

/-- Witness for C9 on an empty store with a session expiring at 100, read at 5. -/
theorem C9_roundTrip_witness :
    alookup ([] : SessionMap) "s1" = none
    ∧ (5 : Int) < 100
    ∧ (InMemorySessionStore.CreateSession [] (Session.mk "s1" "u1" 100)).1 = .ok ()
    ∧ (InMemorySessionStore.GetSession 5
        (InMemorySessionStore.CreateSession [] (Session.mk "s1" "u1" 100)).2 "s1").1
      = .ok (Session.mk "s1" "u1" 100) :=
  ⟨rfl, by norm_num,
   (C9_roundTrip [] (Session.mk "s1" "u1" 100) 5 rfl (by norm_num)).1,
   (C9_roundTrip [] (Session.mk "s1" "u1" 100) 5 rfl (by norm_num)).2⟩

/-- C8: on both session stores, creating a session under a fresh id succeeds,
creating any second session with the same id fails with Conflict and leaves
the store unchanged, and the first session stays readable while unexpired. -/
theorem C8_duplicateCreate (m : SessionMap) (s s2 : Session) (now : Int)
    (hid : s2.id = s.id) (hfresh : alookup m s.id = none) :
    (InMemorySessionStore.CreateSession m s).1 = .ok ()
    ∧ (InMemorySessionStore.CreateSession (InMemorySessionStore.CreateSession m s).2 s2).1
        = .error (errConflict "Session already exists")
    ∧ (InMemorySessionStore.CreateSession (InMemorySessionStore.CreateSession m s).2 s2).2
        = (InMemorySessionStore.CreateSession m s).2
    ∧ (now ≤ s.expiresAt →
        (InMemorySessionStore.GetSession now
          (InMemorySessionStore.CreateSession m s).2 s.id).1 = .ok s)
    ∧ (PostgresStore.CreateSession m s).1 = .ok ()
    ∧ (PostgresStore.CreateSession (PostgresStore.CreateSession m s).2 s2).1
        = .error (errConflict "Session already exists")
    ∧ (PostgresStore.CreateSession (PostgresStore.CreateSession m s).2 s2).2
        = (PostgresStore.CreateSession m s).2
    ∧ (now ≤ s.expiresAt →
        (PostgresStore.GetSession now
          (PostgresStore.CreateSession m s).2 s.id).1 = .ok s) := by
  have h1 : InMemorySessionStore.CreateSession m s = (.ok (), (s.id, s) :: m) := by
    simp [InMemorySessionStore.CreateSession, hfresh]
  have h1p : PostgresStore.CreateSession m s = (.ok (), (s.id, s) :: m) := by
    simp [PostgresStore.CreateSession, hfresh]
  refine ⟨by rw [h1], ?_, ?_, ?_, by rw [h1p], ?_, ?_, ?_⟩
  · rw [h1]
    simp [InMemorySessionStore.CreateSession, alookup, hid]
  · rw [h1]
    simp [InMemorySessionStore.CreateSession, alookup, hid]
  · intro hle
    have hng : ¬ (now > s.expiresAt) := by omega
    rw [h1]
    simp [InMemorySessionStore.GetSession, alookup, hng]
  · rw [h1p]
    simp [PostgresStore.CreateSession, alookup, hid]
  · rw [h1p]
    simp [PostgresStore.CreateSession, alookup, hid]
  · intro hle
    have hng : ¬ (s.expiresAt < now) := by omega
    rw [h1p]
    simp [PostgresStore.GetSession, alookup, hng]

/-- Witness for C8 with two distinct sessions sharing the id "s1". -/
theorem C8_duplicateCreate_witness :
    (Session.mk "s1" "u2" 200).id = (Session.mk "s1" "u1" 100).id
    ∧ alookup ([] : SessionMap) "s1" = none
    ∧ (InMemorySessionStore.CreateSession
        (InMemorySessionStore.CreateSession [] (Session.mk "s1" "u1" 100)).2
        (Session.mk "s1" "u2" 200)).1
      = .error (errConflict "Session already exists")
    ∧ ((5 : Int) ≤ 100 →
        (InMemorySessionStore.GetSession 5
          (InMemorySessionStore.CreateSession [] (Session.mk "s1" "u1" 100)).2 "s1").1
        = .ok (Session.mk "s1" "u1" 100))
    ∧ (PostgresStore.CreateSession
        (PostgresStore.CreateSession [] (Session.mk "s1" "u1" 100)).2
        (Session.mk "s1" "u2" 200)).1
      = .error (errConflict "Session already exists") :=
  ⟨rfl, rfl,
   (C8_duplicateCreate [] (Session.mk "s1" "u1" 100) (Session.mk "s1" "u2" 200) 5
      rfl rfl).2.1,
   (C8_duplicateCreate [] (Session.mk "s1" "u1" 100) (Session.mk "s1" "u2" 200) 5
      rfl rfl).2.2.2.1,
   (C8_duplicateCreate [] (Session.mk "s1" "u1" 100) (Session.mk "s1" "u2" 200) 5
      rfl rfl).2.2.2.2.2.1⟩

/-- C1 counterexample: on the Postgres-backed store, fetching the expired
session "s1" (expiry 0, read at time 10) yields ErrUnauthorized — not a
NotFound-class error — and the stored record is still present afterwards, so
the claim's "deletes the stored record and reports NotFound" fails there. -/
theorem C1_counterexample :
    (PostgresStore.GetSession 10 [("s1", Session.mk "s1" "u1" 0)] "s1").1
      = .error (errUnauthorized "Session expired")
    ∧ (PostgresStore.GetSession 10 [("s1", Session.mk "s1" "u1" 0)] "s1").2
      = [("s1", Session.mk "s1" "u1" 0)]
    ∧ alookup (PostgresStore.GetSession 10 [("s1", Session.mk "s1" "u1" 0)] "s1").2 "s1"
      = some (Session.mk "s1" "u1" 0)
    ∧ (PostgresStore.GetSession 10
        (PostgresStore.GetSession 10 [("s1", Session.mk "s1" "u1" 0)] "s1").2 "s1").1
      = .error (errUnauthorized "Session expired") := by
  refine ⟨rfl, by decide, by decide, rfl⟩

/-- C1 amended: the in-memory store deletes an expired session at read time
and reports NotFound (first "Session expired", then "Session not found", the
record being absent in between), while the Postgres-backed store reports
ErrUnauthorized "Session expired" and leaves the record in place. -/
theorem C1_lazyExpiry (m : SessionMap) (sid : String) (s : Session) (now : Int)
    (hs : alookup m sid = some s) (hexp : s.expiresAt < now) :
    (InMemorySessionStore.GetSession now m sid).1 = .error (errNotFound "Session expired")
    ∧ alookup (InMemorySessionStore.GetSession now m sid).2 sid = none
    ∧ (InMemorySessionStore.GetSession now
        (InMemorySessionStore.GetSession now m sid).2 sid).1
      = .error (errNotFound "Session not found")
    ∧ PostgresStore.GetSession now m sid = (.error (errUnauthorized "Session expired"), m) := by
  have hgt : now > s.expiresAt := hexp
  have hmem : InMemorySessionStore.GetSession now m sid
      = (.error (errNotFound "Session expired"), aerase m sid) := by
    simp [InMemorySessionStore.GetSession, hs, hgt]
  refine ⟨by rw [hmem], ?_, ?_, ?_⟩
  · rw [hmem]
    exact alookup_aerase m sid
  · rw [hmem]
    simp [InMemorySessionStore.GetSession, alookup_aerase]
  · simp [PostgresStore.GetSession, hs, hexp]

/-- Witness for C1's amended theorem at a concrete expired session. -/
theorem C1_lazyExpiry_witness :
    alookup [("s1", Session.mk "s1" "u1" 5)] "s1" = some (Session.mk "s1" "u1" 5)
    ∧ (Session.mk "s1" "u1" 5).expiresAt < 10
    ∧ (InMemorySessionStore.GetSession 10 [("s1", Session.mk "s1" "u1" 5)] "s1").1
      = .error (errNotFound "Session expired")
    ∧ alookup (InMemorySessionStore.GetSession 10
        [("s1", Session.mk "s1" "u1" 5)] "s1").2 "s1" = none
    ∧ (InMemorySessionStore.GetSession 10
        (InMemorySessionStore.GetSession 10 [("s1", Session.mk "s1" "u1" 5)] "s1").2 "s1").1
      = .error (errNotFound "Session not found")
    ∧ PostgresStore.GetSession 10 [("s1", Session.mk "s1" "u1" 5)] "s1"
      = (.error (errUnauthorized "Session expired"), [("s1", Session.mk "s1" "u1" 5)]) :=
  ⟨by decide, by decide,
   (C1_lazyExpiry [("s1", Session.mk "s1" "u1" 5)] "s1" (Session.mk "s1" "u1" 5) 10
      (by decide) (by decide)).1,
   (C1_lazyExpiry [("s1", Session.mk "s1" "u1" 5)] "s1" (Session.mk "s1" "u1" 5) 10
      (by decide) (by decide)).2.1,
   (C1_lazyExpiry [("s1", Session.mk "s1" "u1" 5)] "s1" (Session.mk "s1" "u1" 5) 10
      (by decide) (by decide)).2.2.1,
   (C1_lazyExpiry [("s1", Session.mk "s1" "u1" 5)] "s1" (Session.mk "s1" "u1" 5) 10
      (by decide) (by decide)).2.2.2⟩

/-- A session returned by the persistence tail of HandleCallback always is the
one built with the generated id and now+24h expiry. -/
theorem finishSession_ok {σU σS U : Type} (ss : SessionStoreOps σS) (getID : U → String)
    (now : Int) (sessionId : String) (user : U) (stU : σU) (stS : σS) (s : Session)
    (h : (finishSession ss getID now sessionId user stU stS).1 = .ok s) :
    s = ⟨sessionId, getID user, now + 86400⟩ := by
  unfold finishSession at h
  rcases hc : ss.createSession stS ⟨sessionId, getID user, now + 86400⟩ with ⟨r, st2⟩
  rw [hc] at h
  cases r with
  | error e => simp at h
  | ok u =>
    simp at h
    exact h.symm

/-- A session returned by a successful generic HandleCallback carries the
generated id and the now+24h expiry. -/
theorem handleCallback_ok_session {σU σS U : Type} (providers : List (String × Provider))
    (us : UserStoreOps σU U) (ss : SessionStoreOps σS) (getID : U → String)
    (now : Int) (sessionId provider code : String) (stU : σU) (stS : σS) (s : Session)
    (h : (AuthService.HandleCallback providers us ss getID now sessionId provider code stU stS).1
      = .ok s) :
    s.id = sessionId ∧ s.expiresAt = now + 86400 := by
  unfold AuthService.HandleCallback at h
  repeat' split at h
  all_goals try (simp at h)
  all_goals
    have hs := finishSession_ok _ _ _ _ _ _ _ _ h
  all_goals subst hs
  all_goals exact ⟨rfl, rfl⟩

/-- A session returned by a successful AuthService.CreateSession carries the
generated id and the now+24h expiry. -/
theorem createSession_ok_session {σS U : Type} (ss : SessionStoreOps σS)
    (getID : U → String) (now : Int) (sessionId : String) (user : U) (stS : σS)
    (s : Session)
    (h : (AuthService.CreateSession ss getID now sessionId user stS).1 = .ok s) :
    s = ⟨sessionId, getID user, now + 86400⟩ := by
  unfold AuthService.CreateSession at h
  rcases hc : ss.createSession stS ⟨sessionId, getID user, now + 86400⟩ with ⟨r, st2⟩
  rw [hc] at h
  cases r with
  | error e => simp at h
  | ok u =>
    simp at h
    exact h.symm

/-- C6: every Session the Auth Service creates — via HandleCallback or via
CreateSession — has its expiry set at creation to now + 24 hours (86400
seconds), and a Session counts as expired exactly when its expiry timestamp is
strictly below the current time. -/
theorem C6_sessionTTL {σU σS U σS2 U2 : Type} (providers : List (String × Provider))
    (us : UserStoreOps σU U) (ss : SessionStoreOps σS) (getID : U → String)
    (now : Int) (sessionId provider code : String) (stU : σU) (stS : σS)
    (ss2 : SessionStoreOps σS2) (getID2 : U2 → String) (now2 : Int)
    (sessionId2 : String) (user : U2) (stS2 : σS2) (s1 s2 : Session)
    (h1 : (AuthService.HandleCallback providers us ss getID now sessionId provider code stU stS).1
      = .ok s1)
    (h2 : (AuthService.CreateSession ss2 getID2 now2 sessionId2 user stS2).1 = .ok s2) :
    s1.expiresAt = now + 86400
    ∧ s2.expiresAt = now2 + 86400
    ∧ (∀ (s : Session) (t : Int), s.IsExpired t = true ↔ s.expiresAt < t) := by
  refine ⟨(handleCallback_ok_session providers us ss getID now sessionId provider code
      stU stS s1 h1).2, ?_, ?_⟩
  · have hs := createSession_ok_session ss2 getID2 now2 sessionId2 user stS2 s2 h2
    rw [hs]
  · intro s t
    simp [Session.IsExpired]

/-- Witness for C6: a full callback against the in-memory stores and a direct
CreateSession, both at time 0, produce sessions expiring at 86400. -/
theorem C6_sessionTTL_witness :
    (AuthService.HandleCallback [("google", okProvider)] (memUserOps "u1")
        (memSessionOps 0) User.id 0 "s1" "google" "c" [] []).1
      = .ok (Session.mk "s1" "u1" 86400)
    ∧ (AuthService.CreateSession (memSessionOps 0) User.id 0 "s2"
        (User.mk "u1" "a@b.com" "A" "42" "google") []).1
      = .ok (Session.mk "s2" "u1" 86400)
    ∧ ((Session.mk "s1" "u1" 86400).expiresAt = 0 + 86400
       ∧ (Session.mk "s2" "u1" 86400).expiresAt = 0 + 86400
       ∧ (∀ (s : Session) (t : Int), s.IsExpired t = true ↔ s.expiresAt < t)) :=
  ⟨rfl, rfl,
   C6_sessionTTL [("google", okProvider)] (memUserOps "u1") (memSessionOps 0) User.id
     0 "s1" "google" "c" [] [] (memSessionOps 0) User.id 0 "s2"
     (User.mk "u1" "a@b.com" "A" "42" "google") [] (Session.mk "s1" "u1" 86400)
     (Session.mk "s2" "u1" 86400) rfl rfl⟩

/-- C2 counterexample: the non-generic AuthService.HandleCallback, with a
registered provider whose code exchange fails with the plain error "boom",
returns that error unchanged — not the tagged LuciaError TokenExchangeError
(indeed not a LuciaError at all), refuting the claim for that variant. -/
theorem C2_counterexample :
    (NonGenericAuthService.HandleCallback [("google", failProvider)] unitUserNGOps
        unitSessionOps 0 "u1" "s1" "google" "c" () ()).1
      = .error (.go "boom")
    ∧ luciaTypeOf (NonGenericAuthService.HandleCallback [("google", failProvider)]
        unitUserNGOps unitSessionOps 0 "u1" "s1" "google" "c" () ()).1 = none :=
  ⟨rfl, rfl⟩

/-- C2 amended: for the generic AuthService[U].HandleCallback with a registered
provider, each failing step returns exactly the corresponding tagged error
(TokenExchangeError, UserInfoError, UserCreationFailed, DatabaseError on a
non-not-found lookup failure, SessionCreationFailed on either user path),
while the non-generic AuthService.HandleCallback propagates the underlying
error of a failing exchange or user-info step unchanged. -/
theorem C2_taggedErrors {σU σS U : Type} (providers : List (String × Provider))
    (us : UserStoreOps σU U) (ss : SessionStoreOps σS) (getID : U → String)
    (now : Int) (sessionId provider code : String) (stU : σU) (stS : σS)
    (p : Provider) (hp : alookup providers provider = some p) :
    (∀ e, p.exchangeCode code = .error e →
      (AuthService.HandleCallback providers us ss getID now sessionId provider code stU stS).1
        = .error (luciaErr "TokenExchangeError" "Failed to exchange code for token"))
    ∧ (∀ token e, p.exchangeCode code = .ok token → p.getUserInfo token = .error e →
      (AuthService.HandleCallback providers us ss getID now sessionId provider code stU stS).1
        = .error (luciaErr "UserInfoError" "Failed to get user info"))
    ∧ (∀ token ui e2 stU2 e3 stU3,
        p.exchangeCode code = .ok token → p.getUserInfo token = .ok ui →
        us.getUserByProviderID stU provider ui.id = (.error e2, stU2) →
        isNotFound e2 = true →
        us.createUser stU2 { ui with token := some token } = (.error e3, stU3) →
        (AuthService.HandleCallback providers us ss getID now sessionId provider code stU stS).1
          = .error (luciaErr "UserCreationFailed" "Failed to create user"))
    ∧ (∀ token ui e2 stU2,
        p.exchangeCode code = .ok token → p.getUserInfo token = .ok ui →
        us.getUserByProviderID stU provider ui.id = (.error e2, stU2) →
        isNotFound e2 = false →
        (AuthService.HandleCallback providers us ss getID now sessionId provider code stU stS).1
          = .error (luciaErr "DatabaseError" "Failed to fetch user"))
    ∧ (∀ token ui user stU2 e4 stS2,
        p.exchangeCode code = .ok token → p.getUserInfo token = .ok ui →
        us.getUserByProviderID stU provider ui.id = (.ok user, stU2) →
        ss.createSession stS ⟨sessionId, getID user, now + 86400⟩ = (.error e4, stS2) →
        (AuthService.HandleCallback providers us ss getID now sessionId provider code stU stS).1
          = .error (luciaErr "SessionCreationFailed" "Failed to create session"))
    ∧ (∀ token ui e2 stU2 user stU3 e4 stS2,
        p.exchangeCode code = .ok token → p.getUserInfo token = .ok ui →
        us.getUserByProviderID stU provider ui.id = (.error e2, stU2) →
        isNotFound e2 = true →
        us.createUser stU2 { ui with token := some token } = (.ok user, stU3) →
        ss.createSession stS ⟨sessionId, getID user, now + 86400⟩ = (.error e4, stS2) →
        (AuthService.HandleCallback providers us ss getID now sessionId provider code stU stS).1
          = .error (luciaErr "SessionCreationFailed" "Failed to create session"))
    ∧ (∀ (σU2 σS2 : Type) (usNG : UserStoreNGOps σU2) (ssNG : SessionStoreOps σS2)
        (userId : String) (stU2 : σU2) (stS2 : σS2) (e : Err),
        p.exchangeCode code = .error e →
        (NonGenericAuthService.HandleCallback providers usNG ssNG now userId sessionId
          provider code stU2 stS2).1 = .error e)
    ∧ (∀ (σU2 σS2 : Type) (usNG : UserStoreNGOps σU2) (ssNG : SessionStoreOps σS2)
        (userId : String) (stU2 : σU2) (stS2 : σS2) (token : OAuthToken) (e : Err),
        p.exchangeCode code = .ok token → p.getUserInfo token = .error e →
        (NonGenericAuthService.HandleCallback providers usNG ssNG now userId sessionId
          provider code stU2 stS2).1 = .error e) := by
  refine ⟨?_, ?_, ?_, ?_, ?_, ?_, ?_, ?_⟩
  · intro e he
    simp [AuthService.HandleCallback, hp, he]
  · intro token e hex hui
    simp [AuthService.HandleCallback, hp, hex, hui]
  · intro token ui e2 stU2 e3 stU3 hex hui hg hnf hc
    simp [AuthService.HandleCallback, hp, hex, hui, hg, hnf, hc]
  · intro token ui e2 stU2 hex hui hg hnf
    simp [AuthService.HandleCallback, hp, hex, hui, hg, hnf]
  · intro token ui user stU2 e4 stS2 hex hui hg hcs
    simp [AuthService.HandleCallback, finishSession, hp, hex, hui, hg, hcs]
  · intro token ui e2 stU2 user stU3 e4 stS2 hex hui hg hnf hc hcs
    simp [AuthService.HandleCallback, finishSession, hp, hex, hui, hg, hnf, hc, hcs]
  · intro σU2 σS2 usNG ssNG userId stU2 stS2 e he
    simp [NonGenericAuthService.HandleCallback, hp, he]
  · intro σU2 σS2 usNG ssNG userId stU2 stS2 token e hex hui
    simp [NonGenericAuthService.HandleCallback, hp, hex, hui]

/-- Witness for C2: a registered provider whose exchange fails with "boom"
drives the generic service to TokenExchangeError and the non-generic service
to the untagged error itself. -/
theorem C2_taggedErrors_witness :
    alookup [("google", failProvider)] "google" = some failProvider
    ∧ (AuthService.HandleCallback [("google", failProvider)] unitUserOps unitSessionOps
        (fun _ : Unit => "u") 0 "s1" "google" "c" () ()).1
      = .error (luciaErr "TokenExchangeError" "Failed to exchange code for token")
    ∧ (NonGenericAuthService.HandleCallback [("google", failProvider)] unitUserNGOps
        unitSessionOps 0 "u1" "s1" "google" "c" () ()).1
      = .error (.go "boom") :=
  ⟨rfl,
   (C2_taggedErrors [("google", failProvider)] unitUserOps unitSessionOps
      (fun _ : Unit => "u") 0 "s1" "google" "c" () () failProvider rfl).1
     (.go "boom") rfl,
   (C2_taggedErrors [("google", failProvider)] unitUserOps unitSessionOps
      (fun _ : Unit => "u") 0 "s1" "google" "c" () () failProvider rfl).2.2.2.2.2.2.1
     Unit Unit unitUserNGOps unitSessionOps "u1" () () (.go "boom") rfl⟩

/-- C4: against the in-memory stores, HandleCallback for an external user whose
(provider, external id) pair is absent creates exactly one User and exactly
one Session — the result states are the input states with exactly one new user
record and one new session record — and a second HandleCallback for the same
external user with a fresh valid code creates zero new Users (the user map is
returned unchanged) and exactly one new Session.  The generated random ids are
passed explicitly and assumed fresh, as 128-bit random ids are. -/
theorem C4_findOrCreate (p : Provider) (name code1 code2 uid1 uid2 sid1 sid2 extId : String)
    (now1 now2 : Int) (users0 : UserMap) (sess0 : SessionMap)
    (tok1 tok2 : OAuthToken) (ui1 ui2 : UserInfo)
    (hex1 : p.exchangeCode code1 = .ok tok1) (hui1 : p.getUserInfo tok1 = .ok ui1)
    (hid1 : ui1.id = extId) (hprov1 : ui1.provider = name)
    (hex2 : p.exchangeCode code2 = .ok tok2) (hui2 : p.getUserInfo tok2 = .ok ui2)
    (hid2 : ui2.id = extId) (hprov2 : ui2.provider = name)
    (hnew : findUserByProvider users0 name extId = none)
    (huid1 : alookup users0 uid1 = none)
    (hsid1 : alookup sess0 sid1 = none)
    (hsid21 : ¬ (sid1 = sid2))
    (hsid2 : alookup sess0 sid2 = none) :
    AuthService.HandleCallback [(name, p)] (memUserOps uid1) (memSessionOps now1)
        User.id now1 sid1 name code1 users0 sess0
      = (.ok (Session.mk sid1 uid1 (now1 + 86400)),
         (uid1, User.mk uid1 ui1.email ui1.name extId name) :: users0,
         (sid1, Session.mk sid1 uid1 (now1 + 86400)) :: sess0)
    ∧ AuthService.HandleCallback [(name, p)] (memUserOps uid2) (memSessionOps now2)
        User.id now2 sid2 name code2
        ((uid1, User.mk uid1 ui1.email ui1.name extId name) :: users0)
        ((sid1, Session.mk sid1 uid1 (now1 + 86400)) :: sess0)
      = (.ok (Session.mk sid2 uid1 (now2 + 86400)),
         (uid1, User.mk uid1 ui1.email ui1.name extId name) :: users0,
         (sid2, Session.mk sid2 uid1 (now2 + 86400))
           :: (sid1, Session.mk sid1 uid1 (now1 + 86400)) :: sess0) := by
  constructor
  · simp [AuthService.HandleCallback, finishSession, memUserOps, memSessionOps,
      InMemoryUserStore.GetUserByProviderID, InMemoryUserStore.CreateUser,
      InMemorySessionStore.CreateSession, alookup, isNotFound, errNotFound,
      hex1, hui1, hid1, hprov1, hnew, huid1, hsid1]
  · simp [AuthService.HandleCallback, finishSession, memUserOps, memSessionOps,
      InMemoryUserStore.GetUserByProviderID, InMemoryUserStore.CreateUser,
      InMemorySessionStore.CreateSession, findUserByProvider, alookup,
      hex2, hui2, hid2, hprov2, hsid21, hsid2]

/-- Witness for C4: the spec's worked example — external user "42" at provider
"google" on empty stores, two callbacks with fresh codes and fresh ids. -/
theorem C4_findOrCreate_witness :
    findUserByProvider [] "google" "42" = none
    ∧ AuthService.HandleCallback [("google", okProvider)] (memUserOps "u1")
        (memSessionOps 0) User.id 0 "s1" "google" "c1" [] []
      = (.ok (Session.mk "s1" "u1" 86400),
         [("u1", User.mk "u1" "a@b.com" "A" "42" "google")],
         [("s1", Session.mk "s1" "u1" 86400)])
    ∧ AuthService.HandleCallback [("google", okProvider)] (memUserOps "u2")
        (memSessionOps 5) User.id 5 "s2" "google" "c2"
        [("u1", User.mk "u1" "a@b.com" "A" "42" "google")]
        [("s1", Session.mk "s1" "u1" 86400)]
      = (.ok (Session.mk "s2" "u1" 86405),
         [("u1", User.mk "u1" "a@b.com" "A" "42" "google")],
         [("s2", Session.mk "s2" "u1" 86405), ("s1", Session.mk "s1" "u1" 86400)]) := by
  refine ⟨rfl, ?_, ?_⟩
  · have h := C4_findOrCreate okProvider "google" "c1" "c2" "u1" "u2" "s1" "s2" "42"
      0 5 [] [] stubToken stubToken stubInfo stubInfo
      rfl rfl rfl rfl rfl rfl rfl rfl rfl rfl rfl (by decide) rfl
    exact h.1
  · have h := C4_findOrCreate okProvider "google" "c1" "c2" "u1" "u2" "s1" "s2" "42"
      0 5 [] [] stubToken stubToken stubInfo stubInfo
      rfl rfl rfl rfl rfl rfl rfl rfl rfl rfl rfl (by decide) rfl
    exact h.2

end Toolkit
